import Mathlib

/-!
Verification of the line-visual module (`src/vispy/visuals/line.py`) and its
use of the shader composition engine.

The module defines a `LineVisual` holding an options dictionary
(`pos`, `color`, `width`, `transform`), a cached staged data array
(`self._data`), a cached vertex buffer (`self._vbo`) and a cached composite
shader program (`self._program`).  `set_data` partially updates the options
and nulls the vbo and program caches; assigning `transform` nulls only the
program cache; `paint` lazily rebuilds and issues one LINE_STRIP draw.

The shader composition engine itself (`CompositeProgram`, `FunctionTemplate`,
`FragmentFunction` from `vispy.shaders.composite`) is not part of the sources
under verification; it is modelled from the spec as a passive recorder of
hook bindings and staged values, since every decision the claims are about
(which template is selected, which bindings and values are staged, when the
caches are invalidated) is taken inside `line.py` itself.
-/

/-- Storage class of a shader variable binding: python passes one of the
strings `attribute`, `uniform`, `varying`, `constant`. -/
inductive Storage
  | attr
  | uniform
  | varying
  | const
deriving DecidableEq, Repr

/-- Identifies which shader function template a function instance was bound
from.  `line.py` uses `XYInputFunc`, `XYZInputFunc`, `RGBAAttributeFunc`,
`RGBAUniformFunc`, and the transform's own mapping function obtained through
`transform.bind_map`. -/
inductive TemplateId
  | xyInput
  | xyzInput
  | rgbaAttribute
  | rgbaUniform
  | transformMap (trName : String)
deriving DecidableEq, Repr

/-- A variable binding triple `(storage_class, glsl_type, generated_name)` as
passed to `FunctionTemplate.bind` in `line.py`. -/
structure VarBinding where
  storage : Storage
  glslType : String
  genName : String
deriving DecidableEq, Repr

/-- A position array: numpy array of shape `(N, dim)`.  `dim` is
`pos.shape[-1]` and `rows` the `N` vertices (`len(pos) = rows.length`).
Coordinates are modelled as integers; none of the verified behaviour
depends on coordinate arithmetic. -/
structure PosArray where
  dim : Nat
  rows : List (List Int)
deriving DecidableEq, Repr

/-- The `color` option of a `LineVisual`.  Python distinguishes a plain
tuple, a one-dimensional ndarray and an ndarray with `ndim > 1`:
`color_is_array = isinstance(color, np.ndarray) and color.ndim > 1`
is true only in the last case. -/
inductive ColorSpec
  | tup (c : List Int)
  | arr1 (c : List Int)
  | arr2 (rows : List (List Int))
deriving DecidableEq, Repr

/-- `isinstance(color, np.ndarray) and color.ndim > 1` from
`LineVisual._build_vbo`. -/
def color_is_array : ColorSpec → Bool
  | .arr2 _ => true
  | _ => false

/-- The staged record array `self._data` built by `_build_vbo`: a structured
numpy array with a `pos` field of width `pos.shape[-1]` and, exactly when
`color_is_array`, a `color` field of width `color.shape[-1]`. -/
structure DataArray where
  posDim : Nat
  pos : List (List Int)
  colorField : Option (Nat × List (List Int))
deriving DecidableEq, Repr

/-- `gloo.VertexBuffer(self._data)`: the GPU-side buffer staged from the
data array (the buffer wraps the data it was created from). -/
structure VertexBuffer where
  vdata : DataArray
deriving DecidableEq, Repr

/-- A CPU-side value staged into a function instance slot before a draw:
`line.py` assigns a vbo column (`self._vbo['pos']`, `self._vbo['color']`),
the whole vbo (`self._vbo`), the scalar `0.0`, or `np.array(color)`. -/
inductive Value
  | vboColumn (field : String) (buf : VertexBuffer)
  | vboWhole (buf : VertexBuffer)
  | scalar (x : Int)
  | npArray (c : ColorSpec)
deriving DecidableEq, Repr

/-- Modelled from the spec: a Function Instance (`vispy.shaders.composite`
is not among the sources) — a template bound to concrete variable roles plus
a slot per generated name for the CPU value staged for upload.  `line.py`
only constructs these and fills their slots, so a passive record suffices. -/
structure FuncInstance where
  template : TemplateId
  fname : String
  bindings : List (String × VarBinding)
  values : List (String × Value)
deriving DecidableEq, Repr

/-- A coordinate transform.  `line.py` only stores it and calls
`bind_map('map_local_to_nd')`; the default is `NullTransform()`. -/
structure Transform where
  tname : String
deriving DecidableEq, Repr

/-- `NullTransform()` from `vispy.visuals.transforms`, the default
`transform` option. -/
def NullTransform : Transform := ⟨"NullTransform"⟩

/-- Modelled from the spec: `transform.bind_map(name)` supplies the
transform's own GLSL mapping function as a function instance bound to the
named hook. -/
def Transform.bind_map (t : Transform) (hook : String) : FuncInstance :=
  { template := .transformMap t.tname
    fname := hook
    bindings := []
    values := [] }

/-- The master vertex shader template of `line.py` (braces written
as escapes). -/
def vertex_shader : String :=
  "\n// local_position function must return the current vertex position\n" ++
  "// in the Visual's local coordinate system.\n" ++
  "vec4 local_position(void);\n\n" ++
  "// mapping function that transforms from the Visual's local coordinate\n" ++
  "// system to normalized device coordinates.\n" ++
  "vec4 map_local_to_nd(vec4);\n\n" ++
  "// generic hook for executing code after the vertex position has been set\n" ++
  "void post_hook();\n\n" ++
  "void main(void) \x7b\n" ++
  "    vec4 local_pos = local_position();\n" ++
  "    vec4 nd_pos = map_local_to_nd(local_pos);\n" ++
  "    gl_Position = nd_pos;\n" ++
  "    \n" ++
  "    post_hook();\n" ++
  "\x7d\n"

/-- The master fragment shader template of `line.py`. -/
def fragment_shader : String :=
  "\n// Must return the color for this fragment\n" ++
  "// or discard.\n" ++
  "vec4 frag_color();\n\n" ++
  "void main(void) \x7b\n" ++
  "    gl_FragColor = frag_color();\n" ++
  "\x7d\n"

/-- A hook declaration in a master shader template: name, argument types,
return type. -/
structure HookDecl where
  hname : String
  argTypes : List String
  retType : String
deriving DecidableEq, Repr

/-- The hook forward declarations appearing in `vertex_shader`, transcribed
from its text. -/
def vertexShaderHookDecls : List HookDecl :=
  [⟨"local_position", [], "vec4"⟩,
   ⟨"map_local_to_nd", ["vec4"], "vec4"⟩,
   ⟨"post_hook", [], "void"⟩]

/-- The hook forward declarations appearing in `fragment_shader`. -/
def fragmentShaderHookDecls : List HookDecl :=
  [⟨"frag_color", [], "vec4"⟩]

/-- Whether `pat` is a prefix of `s` (on character lists). -/
def listPrefixEq : List Char → List Char → Bool
  | [], _ => true
  | _ :: _, [] => false
  | a :: as, b :: bs => a = b && listPrefixEq as bs

/-- Whether `pat` occurs as a contiguous substring of `s` (on character
lists). -/
def listHasSub (pat : List Char) : List Char → Bool
  | [] => listPrefixEq pat []
  | c :: cs => listPrefixEq pat (c :: cs) || listHasSub pat cs

/-- String containment check used to relate the transcribed hook
declarations to the shader source text. -/
def strContains (s pat : String) : Bool := listHasSub pat.data s.data

/-- Modelled from the spec: `CompositeProgram` (from
`vispy.shaders.composite`, not among the sources) — owns the master
vertex/fragment templates and a mapping from hook name to the bound
function instance; `set_hook` overwrites any prior binding for that hook. -/
structure CompositeProgram where
  vmain : String
  fmain : String
  hooks : List (String × FuncInstance)
deriving DecidableEq, Repr

/-- Modelled from the spec: `CompositeProgram.set_hook(name, func)` records
`func` as the binding for hook `name`, overwriting any prior binding. -/
def CompositeProgram.set_hook (p : CompositeProgram) (hook : String)
    (f : FuncInstance) : CompositeProgram :=
  { p with hooks := p.hooks.filter (fun kv => kv.1 ≠ hook) ++ [(hook, f)] }

/-- Look up the function instance bound to a hook. -/
def CompositeProgram.hook (p : CompositeProgram) (h : String) :
    Option FuncInstance :=
  p.hooks.lookup h

/-- The `_opts` dictionary of a `LineVisual`. -/
structure Opts where
  pos : Option PosArray
  color : ColorSpec
  width : Int
  transform : Transform
deriving DecidableEq, Repr

/-- The mutable state of a `LineVisual`: the options dictionary, the cached
program (`self._program`), the cached vertex buffer (`self._vbo`) and the
staged data array (`self._data`, which only exists after `_build_vbo` has
run, hence an `Option`). -/
structure LineVisual where
  opts : Opts
  program : Option CompositeProgram
  vbo : Option VertexBuffer
  dataArr : Option DataArray
deriving DecidableEq, Repr

/-- `LineVisual.set_data(pos, color, width)`: each non-`None` keyword
overwrites the corresponding option, then both the vbo and the program
caches are nulled unconditionally. -/
def set_data (v : LineVisual) (pos : Option PosArray)
    (color : Option ColorSpec) (width : Option Int) : LineVisual :=
  let o := v.opts
  let o := match pos with
    | some p => { o with pos := some p }
    | none => o
  let o := match color with
    | some c => { o with color := c }
    | none => o
  let o := match width with
    | some w => { o with width := w }
    | none => o
  { v with opts := o, vbo := none, program := none }

/-- `LineVisual.__init__(pos, color, width)`: default options
(`pos=None`, `color=(1,1,1,1)`, `width=1`, `transform=NullTransform()`),
null caches, then `set_data(pos, color, width)`. -/
def mkLineVisual (pos : Option PosArray) (color : Option ColorSpec)
    (width : Option Int) : LineVisual :=
  set_data
    { opts := { pos := none, color := .tup [1, 1, 1, 1], width := 1,
                transform := NullTransform }
      program := none
      vbo := none
      dataArr := none }
    pos color width

/-- The `transform` property setter: stores the new transform and nulls only
the program cache. -/
def setTransform (v : LineVisual) (tr : Transform) : LineVisual :=
  { v with opts := { v.opts with transform := tr }, program := none }

/-- `LineVisual._build_vbo`: builds the structured data array with a `pos`
field and, exactly when `color_is_array`, a `color` field, then wraps it in
a vertex buffer.  Fails (python `AttributeError`) when `pos` is `None`. -/
def build_vbo (v : LineVisual) : Option LineVisual :=
  match v.opts.pos with
  | none => none
  | some p =>
      let colorF : Option (Nat × List (List Int)) :=
        match v.opts.color with
        | .arr2 rows => some ((rows.headD []).length, rows)
        | _ => none
      let d : DataArray := { posDim := p.dim, pos := p.rows, colorField := colorF }
      some { v with dataArr := some d, vbo := some ⟨d⟩ }

/-- `LineVisual._get_position_function`: selects the shader input function
by `self._data['pos'].shape[-1]`.  Two components: bind `XYInputFunc` with
an `xy_pos` vec2 attribute and a `z_pos` float uniform, staging the vbo's
`pos` column and `0.0`.  Otherwise: bind `XYZInputFunc` with an `xyz_pos`
vec3 attribute, staging the whole vbo. -/
def get_position_function (d : DataArray) (vbo : VertexBuffer) : FuncInstance :=
  if d.posDim = 2 then
    { template := .xyInput
      fname := "local_position"
      bindings := [("xy_pos", ⟨.attr, "vec2", "input_xy_pos"⟩),
                   ("z_pos", ⟨.uniform, "float", "input_z_pos"⟩)]
      values := [("input_xy_pos", .vboColumn "pos" vbo),
                 ("input_z_pos", .scalar 0)] }
  else
    { template := .xyzInput
      fname := "local_position"
      bindings := [("xyz_pos", ⟨.attr, "vec3", "input_xyz_pos"⟩)]
      values := [("input_xyz_pos", .vboWhole vbo)] }

/-- `LineVisual._get_color_func`: if the staged record has a `color` field,
bind `RGBAAttributeFunc` with an `input` vec4 attribute staged from the
vbo's `color` column; otherwise bind `RGBAUniformFunc` with an `rgba` vec4
uniform staged from `np.array(self._opts['color'])`. -/
def get_color_func (d : DataArray) (vbo : VertexBuffer)
    (optsColor : ColorSpec) : FuncInstance :=
  match d.colorField with
  | some _ =>
      { template := .rgbaAttribute
        fname := "frag_color"
        bindings := [("input", ⟨.attr, "vec4", "input_color"⟩)]
        values := [("input_color", .vboColumn "color" vbo)] }
  | none =>
      { template := .rgbaUniform
        fname := "frag_color"
        bindings := [("rgba", ⟨.uniform, "vec4", "input_color"⟩)]
        values := [("input_color", .npArray optsColor)] }

/-- `LineVisual._build_program`: build the vbo if it is nulled, then create
a fresh `CompositeProgram` on the master templates and bind the position,
transform and color function instances to their hooks.  Fails when the
needed cached state cannot be produced (python exception). -/
def build_program (v : LineVisual) : Option LineVisual :=
  match (match v.vbo with
         | none => build_vbo v
         | some _ => some v) with
  | none => none
  | some v1 =>
      match v1.vbo, v1.dataArr with
      | some vbo, some d =>
          let p0 : CompositeProgram :=
            { vmain := vertex_shader, fmain := fragment_shader, hooks := [] }
          let p1 := p0.set_hook "local_position" (get_position_function d vbo)
          let p2 := p1.set_hook "map_local_to_nd"
            (v1.opts.transform.bind_map "map_local_to_nd")
          let p3 := p2.set_hook "frag_color" (get_color_func d vbo v1.opts.color)
          some { v1 with program := some p3 }
      | _, _ => none

/-- Observable effects of one `paint()` call: a program construction, the
`gl.glLineWidth` state change, and the `program.draw` call. -/
inductive PaintEvent
  | buildProgram
  | setLineWidth (w : Int)
  | drawCall (primitive : String)
deriving DecidableEq, Repr

/-- `LineVisual.paint`: returns immediately when `pos` is `None` or empty;
otherwise builds the program if its cache is nulled, sets the line width
from the current `width` option and draws a `LINE_STRIP`.  `none` models a
python exception escaping `paint`. -/
def paint (v : LineVisual) : Option (LineVisual × List PaintEvent) :=
  match v.opts.pos with
  | none => some (v, [])
  | some p =>
      if p.rows.length = 0 then some (v, [])
      else
        match v.program with
        | some _ =>
            some (v, [.setLineWidth v.opts.width, .drawCall "LINE_STRIP"])
        | none =>
            match build_program v with
            | none => none
            | some v' =>
                some (v', [.buildProgram, .setLineWidth v'.opts.width,
                           .drawCall "LINE_STRIP"])

/-- Number of components read per vertex by a function instance through its
attribute bindings (`vec2` brings 2, `vec3` brings 3). -/
def vecComponents : String → Nat
  | "vec2" => 2
  | "vec3" => 3
  | "vec4" => 4
  | "float" => 1
  | _ => 0

/-- Attribute-input arity of a function instance: total number of vertex
components its attribute-class bindings consume. -/
def FuncInstance.attrArity (f : FuncInstance) : Nat :=
  ((f.bindings.filter (fun b => b.2.storage = Storage.attr)).map
    (fun b => vecComponents b.2.glslType)).sum

-- Concrete example states used by witnesses and counterexamples.

/-- A concrete two-vertex 2-D line visual. -/
def exPos : PosArray := ⟨2, [[0, 0], [1, 1]]⟩

/-- A fresh visual over `exPos` with default color and width. -/
def exV : LineVisual := mkLineVisual (some exPos) none none

/-- The visual `exV` after its program has been built. -/
def exVbuilt : LineVisual := (build_program exV).getD exV

/-- The `set_hook` chain performed by `_build_program` on a fresh program
records exactly the three bindings in order. -/
lemma set_hook_chain (f1 f2 f3 : FuncInstance) :
    ((({ vmain := vertex_shader, fmain := fragment_shader, hooks := [] } :
        CompositeProgram).set_hook "local_position" f1).set_hook
        "map_local_to_nd" f2).set_hook "frag_color" f3 =
      { vmain := vertex_shader
        fmain := fragment_shader
        hooks := [("local_position", f1), ("map_local_to_nd", f2),
                  ("frag_color", f3)] } := by
  simp [CompositeProgram.set_hook]

/-- Shared helper: a successful `build_program` keeps the options, leaves a
staged data array and vbo in place, and caches a program on the master
templates whose hooks are exactly the position, transform and color
instances in that order. -/
lemma build_program_spec (v v' : LineVisual) (h : build_program v = some v') :
    ∃ d b, v'.dataArr = some d ∧ v'.vbo = some b ∧ v'.opts = v.opts ∧
      v'.program = some
        { vmain := vertex_shader
          fmain := fragment_shader
          hooks := [("local_position", get_position_function d b),
                    ("map_local_to_nd",
                      v.opts.transform.bind_map "map_local_to_nd"),
                    ("frag_color", get_color_func d b v.opts.color)] } := by
  unfold build_program at h
  cases hv : v.vbo with
  | some b =>
      rw [hv] at h
      cases hd : v.dataArr with
      | none => simp [hv, hd] at h
      | some d =>
          simp only [hv, hd, set_hook_chain, Option.some.injEq] at h
          subst h
          exact ⟨d, b, rfl, rfl, rfl, rfl⟩
  | none =>
      rw [hv] at h
      cases hp : v.opts.pos with
      | none => simp [build_vbo, hp] at h
      | some p =>
          simp only [build_vbo, hp, set_hook_chain, Option.some.injEq] at h
          subst h
          exact ⟨_, _, rfl, rfl, rfl, rfl⟩

/-- Shared helper: `_build_vbo` succeeds whenever position data is set, and
stages a data record carrying the positions and, exactly when
`color_is_array`, the color rows. -/
lemma build_vbo_eq (v : LineVisual) (p : PosArray) (hp : v.opts.pos = some p) :
    ∃ d, build_vbo v = some { v with dataArr := some d, vbo := some ⟨d⟩ } ∧
      d.posDim = p.dim ∧ d.pos = p.rows ∧
      d.colorField = (match v.opts.color with
        | .arr2 rows => some ((rows.headD []).length, rows)
        | _ => none) := by
  refine ⟨{ posDim := p.dim, pos := p.rows,
            colorField := match v.opts.color with
              | .arr2 rows => some ((rows.headD []).length, rows)
              | _ => none }, ?_, rfl, rfl, rfl⟩
  simp only [build_vbo, hp]

/-- Shared helper: `_build_program` succeeds whenever position data is set
and the vbo cache is nulled. -/
lemma build_program_total (v : LineVisual) (p : PosArray)
    (hp : v.opts.pos = some p) (hv : v.vbo = none) :
    ∃ v', build_program v = some v' := by
  obtain ⟨d, hb, -, -, -⟩ := build_vbo_eq v p hp
  refine Option.isSome_iff_exists.mp ?_
  unfold build_program
  rw [hv, hb]
  simp

/-- Shared helper: `paint` on a visual with nonempty position data and a
nulled program cache builds the program and issues the width change and the
LINE_STRIP draw. -/
lemma paint_unbuilt (v v' : LineVisual) (p : PosArray)
    (hp : v.opts.pos = some p) (hne : p.rows ≠ [])
    (hprog : v.program = none) (hb : build_program v = some v') :
    paint v = some (v', [.buildProgram, .setLineWidth v'.opts.width,
                         .drawCall "LINE_STRIP"]) := by
  simp only [paint, hp, hprog, hb, List.length_eq_zero, if_neg hne]

/-- Shared helper: when the lazy rebuild inside `paint` fails, the python
exception escapes `paint`. -/
lemma paint_build_fail (v : LineVisual) (p : PosArray)
    (hp : v.opts.pos = some p) (hne : p.rows ≠ [])
    (hprog : v.program = none) (hb : build_program v = none) :
    paint v = none := by
  simp only [paint, hp, hprog, hb, List.length_eq_zero, if_neg hne]

/-- Shared helper: `paint` on a visual with nonempty position data and a
cached program reuses it and only sets the width and draws. -/
lemma paint_built (v : LineVisual) (p : PosArray) (pr : CompositeProgram)
    (hp : v.opts.pos = some p) (hne : p.rows ≠ [])
    (hprog : v.program = some pr) :
    paint v = some (v, [.setLineWidth v.opts.width,
                        .drawCall "LINE_STRIP"]) := by
  simp only [paint, hp, hprog, List.length_eq_zero, if_neg hne]

/-- C5: each of the pos, color and width keywords of `set_data` that is left
as `None` retains its prior value; only the non-`None` ones are updated, and
the transform option is untouched. -/
theorem C5_set_data_partial_update (v : LineVisual) (pos : Option PosArray)
    (color : Option ColorSpec) (width : Option Int) :
    (set_data v pos color width).opts.pos
        = (match pos with | some p => some p | none => v.opts.pos) ∧
    (set_data v pos color width).opts.color = color.getD v.opts.color ∧
    (set_data v pos color width).opts.width = width.getD v.opts.width ∧
    (set_data v pos color width).opts.transform = v.opts.transform := by
  cases pos <;> cases color <;> cases width <;> simp [set_data]

/-- C8: assigning a new transform or calling `set_data` (with any fields)
discards the cached compiled program, and any unbuilt visual with nonempty
position data rebuilds the program during its next successful `paint`. -/
theorem C8_upstream_change_invalidates (v : LineVisual) (tr : Transform)
    (pos : Option PosArray) (color : Option ColorSpec) (width : Option Int) :
    (setTransform v tr).program = none ∧
    (set_data v pos color width).program = none ∧
    (∀ v' p r, v'.program = none → v'.opts.pos = some p → p.rows ≠ [] →
        paint v' = some r → PaintEvent.buildProgram ∈ r.2) := by
  refine ⟨rfl, rfl, ?_⟩
  intro v' p r hprog hpos hne hpaint
  cases hb : build_program v' with
  | none => rw [paint_build_fail v' p hpos hne hprog hb] at hpaint; cases hpaint
  | some v'' =>
      rw [paint_unbuilt v' v'' p hpos hne hprog hb] at hpaint
      obtain rfl := (Option.some.injEq _ _).mp hpaint
      simp

/-- A transform distinct from the default, used to exercise the
transform-assignment paths. -/
def exTr : Transform := ⟨"STTransform"⟩

/-- The result of repainting `exVbuilt` after a transform change. -/
def exRepaint : LineVisual × List PaintEvent :=
  (paint (setTransform exVbuilt exTr)).getD (exV, [])

set_option maxRecDepth 40000 in
/-- Witness for C8 at a concrete built visual: the transform assignment
nulls the program and the next paint rebuilds. -/
theorem C8_upstream_change_invalidates_witness :
    (setTransform exVbuilt exTr).program = none ∧
    (set_data exVbuilt none none (some 3)).program = none ∧
    PaintEvent.buildProgram ∈ exRepaint.2 := by
  refine ⟨(C8_upstream_change_invalidates exVbuilt exTr none none (some 3)).1,
    (C8_upstream_change_invalidates exVbuilt exTr none none (some 3)).2.1, ?_⟩
  exact (C8_upstream_change_invalidates exVbuilt exTr none none (some 3)).2.2
    (setTransform exVbuilt exTr) exPos exRepaint (by decide) (by decide)
    (by decide) (by decide)

/-- C2: the position input template is selected by `pos.shape[-1]`: two
components bind `XYInputFunc` with an `xy_pos` vec2 attribute (the vbo's
pos column) and a `z_pos` float uniform; three components bind
`XYZInputFunc` with only an `xyz_pos` vec3 attribute; in both cases the
selected instance's attribute arity equals `pos.shape[-1]`. -/
theorem C2_position_template_selection (d : DataArray) (vbo : VertexBuffer) :
    (d.posDim = 2 →
      get_position_function d vbo =
        { template := .xyInput
          fname := "local_position"
          bindings := [("xy_pos", ⟨.attr, "vec2", "input_xy_pos"⟩),
                       ("z_pos", ⟨.uniform, "float", "input_z_pos"⟩)]
          values := [("input_xy_pos", .vboColumn "pos" vbo),
                     ("input_z_pos", .scalar 0)] } ∧
      (get_position_function d vbo).attrArity = d.posDim) ∧
    (d.posDim = 3 →
      get_position_function d vbo =
        { template := .xyzInput
          fname := "local_position"
          bindings := [("xyz_pos", ⟨.attr, "vec3", "input_xyz_pos"⟩)]
          values := [("input_xyz_pos", .vboWhole vbo)] } ∧
      (get_position_function d vbo).attrArity = d.posDim) := by
  constructor
  · intro h2
    rw [get_position_function, if_pos h2, h2]
    exact ⟨rfl, by simp [FuncInstance.attrArity, vecComponents]⟩
  · intro h3
    rw [get_position_function, if_neg (by rw [h3]; decide), h3]
    exact ⟨rfl, by simp [FuncInstance.attrArity, vecComponents]⟩

/-- A concrete 2-D staged data record. -/
def exD2 : DataArray := ⟨2, [[0, 0], [1, 1]], none⟩

/-- Shared helper: hook lookup on the three-hook program produced by
`_build_program`. -/
lemma hook_lookup (f1 f2 f3 : FuncInstance) :
    (CompositeProgram.mk vertex_shader fragment_shader
        [("local_position", f1), ("map_local_to_nd", f2),
         ("frag_color", f3)]).hook "local_position" = some f1 ∧
    (CompositeProgram.mk vertex_shader fragment_shader
        [("local_position", f1), ("map_local_to_nd", f2),
         ("frag_color", f3)]).hook "map_local_to_nd" = some f2 ∧
    (CompositeProgram.mk vertex_shader fragment_shader
        [("local_position", f1), ("map_local_to_nd", f2),
         ("frag_color", f3)]).hook "frag_color" = some f3 := by
  refine ⟨?_, ?_, ?_⟩ <;> simp [CompositeProgram.hook, List.lookup]

/-- C3: a per-vertex color array (ndarray with more than one dimension)
makes `_build_vbo` stage a `color` column — exactly in this case — and makes
`_get_color_func` select the attribute-based `RGBAAttributeFunc` bound to
the vbo's color column; a non-array color selects `RGBAUniformFunc` staged
with the single value instead. -/
theorem C3_per_vertex_color_selection (v : LineVisual) (p : PosArray)
    (hp : v.opts.pos = some p) :
    ∃ v1 d, build_vbo v = some v1 ∧ v1.dataArr = some d ∧ v1.vbo = some ⟨d⟩ ∧
      d.colorField.isSome = color_is_array v.opts.color ∧
      (∀ rows, v.opts.color = .arr2 rows →
        d.colorField = some ((rows.headD []).length, rows) ∧
        get_color_func d ⟨d⟩ v.opts.color =
          { template := .rgbaAttribute
            fname := "frag_color"
            bindings := [("input", ⟨.attr, "vec4", "input_color"⟩)]
            values := [("input_color", .vboColumn "color" ⟨d⟩)] }) ∧
      (color_is_array v.opts.color = false →
        get_color_func d ⟨d⟩ v.opts.color =
          { template := .rgbaUniform
            fname := "frag_color"
            bindings := [("rgba", ⟨.uniform, "vec4", "input_color"⟩)]
            values := [("input_color", .npArray v.opts.color)] }) := by
  obtain ⟨d, hb, hdim, hpos, hcf⟩ := build_vbo_eq v p hp
  refine ⟨_, d, hb, rfl, rfl, ?_, ?_, ?_⟩
  · cases hc : v.opts.color <;> rw [hc] at hcf <;>
      simp [hcf, color_is_array]
  · intro rows hrows
    rw [hrows] at hcf
    simp only at hcf
    refine ⟨hcf, ?_⟩
    rw [get_color_func.eq_def, hcf]
  · intro hfalse
    cases hc : v.opts.color <;> rw [hc] at hcf hfalse <;>
      simp [color_is_array] at hfalse ⊢ <;>
      simp only at hcf <;> rw [get_color_func.eq_def, hcf]

/-- Shared helper: on a visual with position data and a nulled vbo cache,
`_build_program` stages a fresh data record and vbo and caches the program
with the three hook bindings computed from them. -/
lemma build_program_fresh (v : LineVisual) (p : PosArray)
    (hp : v.opts.pos = some p) (hv : v.vbo = none) :
    ∃ d, d.posDim = p.dim ∧ d.pos = p.rows ∧
      d.colorField = (match v.opts.color with
        | .arr2 rows => some ((rows.headD []).length, rows)
        | _ => none) ∧
      build_program v = some
        { v with
          dataArr := some d
          vbo := some ⟨d⟩
          program := some
            { vmain := vertex_shader
              fmain := fragment_shader
              hooks := [("local_position", get_position_function d ⟨d⟩),
                        ("map_local_to_nd",
                          v.opts.transform.bind_map "map_local_to_nd"),
                        ("frag_color", get_color_func d ⟨d⟩ v.opts.color)] } } := by
  obtain ⟨d, hb, h1, h2, h3⟩ := build_vbo_eq v p hp
  refine ⟨d, h1, h2, h3, ?_⟩
  unfold build_program
  rw [hv, hb]
  simp [set_hook_chain]

/-- C4: painting a freshly constructed visual with nonempty 2-D positions, a
uniform (tuple) color and a width issues exactly one LINE_STRIP draw after a
program build and the width state change, with the 2-D position function
staging `input_z_pos = 0.0` and the uniform color function staging the
caller's RGBA value. -/
theorem C4_paint_2d_uniform_line (p : PosArray) (c : List Int) (w : Int)
    (hdim : p.dim = 2) (hne : p.rows ≠ []) :
    ∃ v' d,
      paint (mkLineVisual (some p) (some (.tup c)) (some w)) =
        some (v', [.buildProgram, .setLineWidth w, .drawCall "LINE_STRIP"]) ∧
      v'.program = some
        { vmain := vertex_shader
          fmain := fragment_shader
          hooks := [("local_position",
                      { template := .xyInput
                        fname := "local_position"
                        bindings := [("xy_pos", ⟨.attr, "vec2", "input_xy_pos"⟩),
                                     ("z_pos", ⟨.uniform, "float", "input_z_pos"⟩)]
                        values := [("input_xy_pos", .vboColumn "pos" ⟨d⟩),
                                   ("input_z_pos", .scalar 0)] }),
                    ("map_local_to_nd",
                      NullTransform.bind_map "map_local_to_nd"),
                    ("frag_color",
                      { template := .rgbaUniform
                        fname := "frag_color"
                        bindings := [("rgba", ⟨.uniform, "vec4", "input_color"⟩)]
                        values := [("input_color", .npArray (.tup c))] })] } ∧
      List.count (PaintEvent.drawCall "LINE_STRIP")
        [PaintEvent.buildProgram, PaintEvent.setLineWidth w,
         PaintEvent.drawCall "LINE_STRIP"] = 1 := by
  obtain ⟨d, hdim2, hrows, hcf, hbp⟩ :=
    build_program_fresh (mkLineVisual (some p) (some (.tup c)) (some w)) p
      rfl rfl
  have hcf2 : d.colorField = none := hcf
  have hposf : get_position_function d ⟨d⟩ =
      { template := .xyInput
        fname := "local_position"
        bindings := [("xy_pos", ⟨.attr, "vec2", "input_xy_pos"⟩),
                     ("z_pos", ⟨.uniform, "float", "input_z_pos"⟩)]
        values := [("input_xy_pos", .vboColumn "pos" ⟨d⟩),
                   ("input_z_pos", .scalar 0)] } := by
    rw [get_position_function, if_pos (by rw [hdim2, hdim])]
  have hcolf : get_color_func d ⟨d⟩ (ColorSpec.tup c) =
      { template := .rgbaUniform
        fname := "frag_color"
        bindings := [("rgba", ⟨.uniform, "vec4", "input_color"⟩)]
        values := [("input_color", .npArray (.tup c))] } := by
    rw [get_color_func.eq_def, hcf2]
  refine ⟨_, d, paint_unbuilt _ _ p rfl hne rfl hbp, ?_, by simp⟩
  show some _ = some _
  rw [show get_color_func d ⟨d⟩
        (mkLineVisual (some p) (some (.tup c)) (some w)).opts.color
      = get_color_func d ⟨d⟩ (ColorSpec.tup c) from rfl, hposf, hcolf]
  exact rfl

/-- Witness for C4: a concrete paint of two 2-D points with white color and
width 1. -/
theorem C4_paint_2d_uniform_line_witness :
    ∃ v' d,
      paint (mkLineVisual (some exPos) (some (.tup [1, 1, 1, 1])) (some 1)) =
        some (v', [.buildProgram, .setLineWidth 1, .drawCall "LINE_STRIP"]) ∧
      v'.program = some
        { vmain := vertex_shader
          fmain := fragment_shader
          hooks := [("local_position",
                      { template := .xyInput
                        fname := "local_position"
                        bindings := [("xy_pos", ⟨.attr, "vec2", "input_xy_pos"⟩),
                                     ("z_pos", ⟨.uniform, "float", "input_z_pos"⟩)]
                        values := [("input_xy_pos", .vboColumn "pos" ⟨d⟩),
                                   ("input_z_pos", .scalar 0)] }),
                    ("map_local_to_nd",
                      NullTransform.bind_map "map_local_to_nd"),
                    ("frag_color",
                      { template := .rgbaUniform
                        fname := "frag_color"
                        bindings := [("rgba", ⟨.uniform, "vec4", "input_color"⟩)]
                        values := [("input_color", .npArray (.tup [1, 1, 1, 1]))] })] } ∧
      List.count (PaintEvent.drawCall "LINE_STRIP")
        [PaintEvent.buildProgram, PaintEvent.setLineWidth 1,
         PaintEvent.drawCall "LINE_STRIP"] = 1 :=
  C4_paint_2d_uniform_line exPos [1, 1, 1, 1] 1 rfl (by decide)

/-- Shared helper: `paint` with no position data returns at once, leaving
the state untouched, with no effect. -/
lemma paint_none_pos (v : LineVisual) (h : v.opts.pos = none) :
    paint v = some (v, []) := by
  simp [paint, h]

/-- Shared helper: `paint` with an empty position array returns at once,
leaving the state untouched, with no effect. -/
lemma paint_empty_pos (v : LineVisual) (p : PosArray)
    (hp : v.opts.pos = some p) (h : p.rows = []) :
    paint v = some (v, []) := by
  simp [paint, hp, h]

/-- A visual whose position data is set but holds zero vertices. -/
def exEmptyV : LineVisual := mkLineVisual (some ⟨2, []⟩) none none

/-- Counterexample for C6: a visual whose position data is set (not `None`)
but empty is also painted as a no-op — no program build, no state change, no
draw — contradicting the claim that `paint` builds and draws whenever
position data is set. -/
theorem C6_counterexample :
    exEmptyV.opts.pos ≠ none ∧ paint exEmptyV = some (exEmptyV, []) ∧
    exEmptyV.program = none := by decide

/-- C6 (amended): `paint` is a no-op — state unchanged and no effect — when
position data is not set or is empty; otherwise a successful `paint` leaves
the program built and issues the draw after setting the current width. -/
theorem C6_paint_noop_or_draw (v : LineVisual) :
    (v.opts.pos = none → paint v = some (v, [])) ∧
    (∀ p, v.opts.pos = some p → p.rows = [] → paint v = some (v, [])) ∧
    (∀ p r, v.opts.pos = some p → p.rows ≠ [] → paint v = some r →
      r.1.program.isSome = true ∧
      r.2.getLast? = some (.drawCall "LINE_STRIP") ∧
      PaintEvent.setLineWidth v.opts.width ∈ r.2) := by
  refine ⟨paint_none_pos v, paint_empty_pos v, ?_⟩
  intro p r hp hne hpaint
  cases hprog : v.program with
  | some pr =>
      rw [paint_built v p pr hp hne hprog] at hpaint
      obtain rfl := (Option.some.injEq _ _).mp hpaint
      simp [hprog]
  | none =>
      cases hb : build_program v with
      | none => rw [paint_build_fail v p hp hne hprog hb] at hpaint; cases hpaint
      | some v' =>
          rw [paint_unbuilt v v' p hp hne hprog hb] at hpaint
          obtain rfl := (Option.some.injEq _ _).mp hpaint
          obtain ⟨d, b, -, -, hopts, hprog'⟩ := build_program_spec v v' hb
          refine ⟨by simp [hprog'], by simp, ?_⟩
          rw [hopts]
          simp

/-- The result of painting the fresh visual `exV`. -/
def exPaint : LineVisual × List PaintEvent := (paint exV).getD (exV, [])

set_option maxRecDepth 40000 in
/-- Witness for C6 at the fresh nonempty visual `exV`. -/
theorem C6_paint_noop_or_draw_witness :
    exPaint.1.program.isSome = true ∧
    exPaint.2.getLast? = some (.drawCall "LINE_STRIP") ∧
    PaintEvent.setLineWidth exV.opts.width ∈ exPaint.2 :=
  (C6_paint_noop_or_draw exV).2.2 exPos exPaint rfl (by decide) (by decide)

/-- C7: building is idempotent — a second `paint` right after a successful
one performs no further program construction and leaves the state unchanged,
so at most one build happens across the two calls. -/
theorem C7_build_idempotent (v v1 : LineVisual) (t1 : List PaintEvent)
    (h1 : paint v = some (v1, t1)) :
    ∃ t2, paint v1 = some (v1, t2) ∧
      PaintEvent.buildProgram ∉ t2 ∧
      List.count PaintEvent.buildProgram (t1 ++ t2) ≤ 1 := by
  cases hp : v.opts.pos with
  | none =>
      rw [paint_none_pos v hp] at h1
      simp only [Option.some.injEq, Prod.mk.injEq] at h1
      obtain ⟨rfl, rfl⟩ := h1
      exact ⟨[], paint_none_pos v hp, by simp, by simp⟩
  | some p =>
      by_cases hne : p.rows = []
      · rw [paint_empty_pos v p hp hne] at h1
        simp only [Option.some.injEq, Prod.mk.injEq] at h1
        obtain ⟨rfl, rfl⟩ := h1
        exact ⟨[], paint_empty_pos v p hp hne, by simp, by simp⟩
      · cases hprog : v.program with
        | some pr =>
            rw [paint_built v p pr hp hne hprog] at h1
            simp only [Option.some.injEq, Prod.mk.injEq] at h1
            obtain ⟨rfl, rfl⟩ := h1
            exact ⟨_, paint_built v p pr hp hne hprog, by simp, by simp⟩
        | none =>
            cases hb : build_program v with
            | none => rw [paint_build_fail v p hp hne hprog hb] at h1; cases h1
            | some v' =>
                rw [paint_unbuilt v v' p hp hne hprog hb] at h1
                simp only [Option.some.injEq, Prod.mk.injEq] at h1
                obtain ⟨rfl, rfl⟩ := h1
                obtain ⟨d, b, -, -, hopts, hprog'⟩ := build_program_spec v v' hb
                refine ⟨_, paint_built v' p _ (by rw [hopts, hp]) hne hprog',
                  by simp, by simp⟩

set_option maxRecDepth 40000 in
/-- Witness for C7: repainting the concrete painted visual `exPaint.1`. -/
theorem C7_build_idempotent_witness :
    ∃ t2, paint exPaint.1 = some (exPaint.1, t2) ∧
      PaintEvent.buildProgram ∉ t2 ∧
      List.count PaintEvent.buildProgram (exPaint.2 ++ t2) ≤ 1 :=
  C7_build_idempotent exV exPaint.1 exPaint.2 (by decide)

/-- A per-vertex color array of two RGBA rows. -/
def exColorRows : List (List Int) := [[1, 0, 0, 1], [0, 1, 0, 1]]

/-- A visual with positions and a per-vertex color array. -/
def exVcolor : LineVisual :=
  mkLineVisual (some exPos) (some (.arr2 exColorRows)) none

set_option maxRecDepth 40000 in
/-- Witness for C3 at a visual carrying a two-row per-vertex color array. -/
theorem C3_per_vertex_color_selection_witness :
    ∃ v1 d, build_vbo exVcolor = some v1 ∧ v1.dataArr = some d ∧
      d.colorField = some (4, exColorRows) ∧
      get_color_func d ⟨d⟩ exVcolor.opts.color =
        { template := .rgbaAttribute
          fname := "frag_color"
          bindings := [("input", ⟨.attr, "vec4", "input_color"⟩)]
          values := [("input_color", .vboColumn "color" ⟨d⟩)] } := by
  obtain ⟨v1, d, h1, h2, -, -, h5, -⟩ :=
    C3_per_vertex_color_selection exVcolor exPos (by decide)
  obtain ⟨h6, h7⟩ := h5 exColorRows (by decide)
  exact ⟨v1, d, h1, h2, h6, h7⟩

/-- Witness for C2 at a concrete 2-D data record. -/
theorem C2_position_template_selection_witness :
    get_position_function exD2 ⟨exD2⟩ =
      { template := .xyInput
        fname := "local_position"
        bindings := [("xy_pos", ⟨.attr, "vec2", "input_xy_pos"⟩),
                     ("z_pos", ⟨.uniform, "float", "input_z_pos"⟩)]
        values := [("input_xy_pos", .vboColumn "pos" ⟨exD2⟩),
                   ("input_z_pos", .scalar 0)] } ∧
    (get_position_function exD2 ⟨exD2⟩).attrArity = exD2.posDim :=
  (C2_position_template_selection exD2 ⟨exD2⟩).1 rfl

set_option maxRecDepth 40000 in
/-- C9: the master shader templates declare exactly the fixed hook contract
(`local_position() -> vec4`, `map_local_to_nd(vec4) -> vec4`, `post_hook()`
with no return in the vertex stage; `frag_color() -> vec4` in the fragment
stage), and every program build binds instances to `local_position`,
`map_local_to_nd` and `frag_color`, leaving the optional `post_hook`
unbound. -/
theorem C9_hook_contract (v v' : LineVisual) (h : build_program v = some v') :
    vertexShaderHookDecls =
      [⟨"local_position", [], "vec4"⟩, ⟨"map_local_to_nd", ["vec4"], "vec4"⟩,
       ⟨"post_hook", [], "void"⟩] ∧
    fragmentShaderHookDecls = [⟨"frag_color", [], "vec4"⟩] ∧
    strContains vertex_shader "vec4 local_position(void);" = true ∧
    strContains vertex_shader "vec4 map_local_to_nd(vec4);" = true ∧
    strContains vertex_shader "void post_hook();" = true ∧
    strContains fragment_shader "vec4 frag_color();" = true ∧
    ∃ pr, v'.program = some pr ∧ pr.vmain = vertex_shader ∧
      pr.fmain = fragment_shader ∧
      pr.hooks.map Prod.fst = ["local_position", "map_local_to_nd",
                               "frag_color"] ∧
      "post_hook" ∉ pr.hooks.map Prod.fst ∧
      (∀ hn ∈ pr.hooks.map Prod.fst,
        hn ∈ (vertexShaderHookDecls ++ fragmentShaderHookDecls).map
          HookDecl.hname) := by
  obtain ⟨d, b, -, -, -, hprog⟩ := build_program_spec v v' h
  refine ⟨rfl, rfl, by decide, by decide, by decide, by decide,
    _, hprog, rfl, rfl, rfl, ?_, ?_⟩
  · simp
  · simp [vertexShaderHookDecls, fragmentShaderHookDecls]

set_option maxRecDepth 40000 in
/-- Witness for C9 at the concrete built visual. -/
theorem C9_hook_contract_witness :
    ∃ pr, exVbuilt.program = some pr ∧
      pr.hooks.map Prod.fst = ["local_position", "map_local_to_nd",
                               "frag_color"] := by
  obtain ⟨-, -, -, -, -, -, pr, h1, -, -, h4, -, -⟩ :=
    C9_hook_contract exV exVbuilt (by decide)
  exact ⟨pr, h1, h4⟩

/-- Shared helper: `_build_program` on a visual whose vbo and data caches
are populated skips `_build_vbo` and rebuilds the program from the cached
buffers. -/
lemma build_program_cached (v : LineVisual) (b : VertexBuffer) (d : DataArray)
    (hb : v.vbo = some b) (hd : v.dataArr = some d) :
    build_program v = some
      { v with
        program := some
          { vmain := vertex_shader
            fmain := fragment_shader
            hooks := [("local_position", get_position_function d b),
                      ("map_local_to_nd",
                        v.opts.transform.bind_map "map_local_to_nd"),
                      ("frag_color", get_color_func d b v.opts.color)] } } := by
  unfold build_program
  simp only [hb, hd, set_hook_chain]

/-- C10: assigning a new transform nulls only the program cache: the staged
vertex buffer and data array survive unchanged and the next program build
reuses them (no `_build_vbo` rerun), whereas `set_data` also discards the
vertex buffer cache. -/
theorem C10_transform_keeps_buffers (v : LineVisual) (tr : Transform)
    (b : VertexBuffer) (d : DataArray)
    (hb : v.vbo = some b) (hd : v.dataArr = some d) :
    (setTransform v tr).vbo = some b ∧
    (setTransform v tr).dataArr = some d ∧
    (setTransform v tr).program = none ∧
    (∃ v', build_program (setTransform v tr) = some v' ∧
       v'.vbo = some b ∧ v'.dataArr = some d ∧
       v'.program = some
         { vmain := vertex_shader
           fmain := fragment_shader
           hooks := [("local_position", get_position_function d b),
                     ("map_local_to_nd", tr.bind_map "map_local_to_nd"),
                     ("frag_color", get_color_func d b v.opts.color)] }) ∧
    (∀ pos color width, (set_data v pos color width).vbo = none ∧
       (set_data v pos color width).program = none) := by
  have hb' : (setTransform v tr).vbo = some b := hb
  have hd' : (setTransform v tr).dataArr = some d := hd
  refine ⟨hb', hd', rfl, ?_, fun pos color width => ⟨rfl, rfl⟩⟩
  exact ⟨_, build_program_cached (setTransform v tr) b d hb' hd', hb', hd',
    rfl⟩

set_option maxRecDepth 40000 in
/-- Witness for C10 at the concrete built visual. -/
theorem C10_transform_keeps_buffers_witness :
    (setTransform exVbuilt exTr).vbo = some ⟨exD2⟩ ∧
    (setTransform exVbuilt exTr).dataArr = some exD2 ∧
    (setTransform exVbuilt exTr).program = none ∧
    (∃ v', build_program (setTransform exVbuilt exTr) = some v' ∧
       v'.vbo = some ⟨exD2⟩ ∧ v'.dataArr = some exD2 ∧
       v'.program = some
         { vmain := vertex_shader
           fmain := fragment_shader
           hooks := [("local_position", get_position_function exD2 ⟨exD2⟩),
                     ("map_local_to_nd", exTr.bind_map "map_local_to_nd"),
                     ("frag_color",
                       get_color_func exD2 ⟨exD2⟩ exVbuilt.opts.color)] }) ∧
    (∀ pos color width, (set_data exVbuilt pos color width).vbo = none ∧
       (set_data exVbuilt pos color width).program = none) :=
  C10_transform_keeps_buffers exVbuilt exTr ⟨exD2⟩ exD2 (by decide) (by decide)

set_option maxRecDepth 40000 in
/-- Counterexample for C1: on a concrete built visual, `set_data(width=3)`
does not leave the cached program intact — the cache is nulled
unconditionally, so a shader rebuild is forced. -/
theorem C1_counterexample :
    exVbuilt.program.isSome = true ∧
    (set_data exVbuilt none none (some 3)).program = none := by decide

/-- C1 (amended): `set_data(width=w)` on a visual with nonempty position
data discards the cached program (so the next `paint` rebuilds the shader
program), and that `paint` uses the new width as the rasterization
line-width state ahead of its draw call. -/
theorem C1_width_only_set_data (v : LineVisual) (p : PosArray) (w : Int)
    (hp : v.opts.pos = some p) (hne : p.rows ≠ []) :
    (set_data v none none (some w)).program = none ∧
    (set_data v none none (some w)).opts.pos = some p ∧
    (set_data v none none (some w)).opts.width = w ∧
    ∃ v', paint (set_data v none none (some w)) =
      some (v', [.buildProgram, .setLineWidth w, .drawCall "LINE_STRIP"]) := by
  have hp' : (set_data v none none (some w)).opts.pos = some p := hp
  refine ⟨rfl, hp', rfl, ?_⟩
  obtain ⟨v', hbv⟩ := build_program_total (set_data v none none (some w)) p hp' rfl
  obtain ⟨d, b, -, -, hopts, -⟩ :=
    build_program_spec (set_data v none none (some w)) v' hbv
  refine ⟨v', ?_⟩
  rw [paint_unbuilt (set_data v none none (some w)) v' p hp' hne rfl hbv,
    hopts]
  exact rfl

set_option maxRecDepth 40000 in
/-- Witness for C1 at the concrete built visual with width 3. -/
theorem C1_width_only_set_data_witness :
    (set_data exVbuilt none none (some 3)).program = none ∧
    (set_data exVbuilt none none (some 3)).opts.pos = some exPos ∧
    (set_data exVbuilt none none (some 3)).opts.width = 3 ∧
    ∃ v', paint (set_data exVbuilt none none (some 3)) =
      some (v', [.buildProgram, .setLineWidth 3, .drawCall "LINE_STRIP"]) :=
  C1_width_only_set_data exVbuilt exPos 3 (by decide) (by decide)
